import Mathlib

/-!
Verification of the timetracker activity-monitoring agent.

Shallow embedding of the idle-detection state machine
(src/app/IdleDetector.cpp), the activity-log upload pipeline
(src/app/ApiService.cpp) and the idle annotation flow
(src/app/TimeTrackerMainWindow.cpp, src/app/IdleAnnotationDialog.cpp).

Wall-clock instants are modelled as integers counting seconds, so that
QDateTime::secsTo a b is the integer difference b - a.  Qt strings are
modelled as lists of characters.  Each C++ member function becomes a pure
function from the object state (plus the current instant) to the new state
together with the list of Qt signals it emits, in emission order.
-/

set_option maxHeartbeats 1000000

namespace TimeTracker

/-- QDateTime::secsTo: the signed number of seconds from a to b. -/
def secsTo (a b : Int) : Int := b - a

/-! ## IdleDetector (src/app/IdleDetector.cpp) -/

/-- The mutable state of an IdleDetector object: the timer activity flag
(m_checkTimer->isActive()), m_lastActivityTime, m_idleStartTime,
m_isCurrentlyIdle and m_idleThresholdSeconds. -/
structure DetectorState where
  running : Bool
  lastActivityTime : Int
  idleStartTime : Int
  isCurrentlyIdle : Bool
  idleThresholdSeconds : Int
deriving DecidableEq

/-- The Qt signals an IdleDetector emits. -/
inductive Signal where
  | idleStarted (durationSeconds : Int)
  | idleEnded (totalIdleDurationSeconds : Int)
deriving DecidableEq

namespace IdleDetector

/-- IdleDetector::start at instant now. -/
def start (s : DetectorState) (now : Int) : DetectorState × List Signal :=
  if s.running then (s, [])
  else
    ({ s with lastActivityTime := now, isCurrentlyIdle := false, running := true }, [])

/-- IdleDetector::stop at instant now. -/
def stop (s : DetectorState) (now : Int) : DetectorState × List Signal :=
  if s.running then
    if s.isCurrentlyIdle then
      ({ s with running := false, isCurrentlyIdle := false },
        [Signal.idleEnded (secsTo s.idleStartTime now)])
    else
      ({ s with running := false }, [])
  else (s, [])

/-- IdleDetector::updateLastActivityTime at instant now. -/
def updateLastActivityTime (s : DetectorState) (now : Int) :
    DetectorState × List Signal :=
  if s.isCurrentlyIdle then
    ({ s with isCurrentlyIdle := false, lastActivityTime := now },
      [Signal.idleEnded (secsTo s.idleStartTime now)])
  else
    ({ s with lastActivityTime := now }, [])

/-- IdleDetector::checkIdleState at instant now. -/
def checkIdleState (s : DetectorState) (now : Int) : DetectorState × List Signal :=
  if s.isCurrentlyIdle = false ∧ s.idleThresholdSeconds ≤ secsTo s.lastActivityTime now then
    ({ s with isCurrentlyIdle := true,
              idleStartTime := s.lastActivityTime + s.idleThresholdSeconds },
      [Signal.idleStarted s.idleThresholdSeconds])
  else (s, [])

/-- IdleDetector::triggerIdleCheck: calls checkIdleState unconditionally. -/
def triggerIdleCheck (s : DetectorState) (now : Int) : DetectorState × List Signal :=
  checkIdleState s now

/-- IdleDetector::setIdleThresholdSeconds. -/
def setIdleThresholdSeconds (s : DetectorState) (seconds : Int) :
    DetectorState × List Signal :=
  if 0 < seconds then ({ s with idleThresholdSeconds := seconds }, [])
  else (s, [])

/-- IdleDetector::isRunning. -/
def isRunning (s : DetectorState) : Bool := s.running

/-- IdleDetector::isIdle. -/
def isIdle (s : DetectorState) : Bool := s.isCurrentlyIdle

/-- IdleDetector::getIdleDurationSeconds at instant now. -/
def getIdleDurationSeconds (s : DetectorState) (now : Int) : Int :=
  if s.isCurrentlyIdle = false then 0 else secsTo s.idleStartTime now

end IdleDetector

/-- One invocation arriving at the detector: the public interface calls,
plus timerTick, a firing of the internal one-second check timer, which
reaches checkIdleState only while the timer is active. -/
inductive Call where
  | start (now : Int)
  | stop (now : Int)
  | updateLastActivityTime (now : Int)
  | triggerIdleCheck (now : Int)
  | setIdleThresholdSeconds (seconds : Int)
  | timerTick (now : Int)
deriving DecidableEq

/-- Dispatch one call to the detector. -/
def detStep (s : DetectorState) : Call → DetectorState × List Signal
  | Call.start now => IdleDetector.start s now
  | Call.stop now => IdleDetector.stop s now
  | Call.updateLastActivityTime now => IdleDetector.updateLastActivityTime s now
  | Call.triggerIdleCheck now => IdleDetector.triggerIdleCheck s now
  | Call.setIdleThresholdSeconds seconds =>
      IdleDetector.setIdleThresholdSeconds s seconds
  | Call.timerTick now =>
      if s.running then IdleDetector.checkIdleState s now else (s, [])

/-- Run a sequence of calls, concatenating the emitted signals. -/
def detRun (s : DetectorState) : List Call → DetectorState × List Signal
  | [] => (s, [])
  | c :: cs =>
      let r := detStep s c
      let r2 := detRun r.1 cs
      (r2.1, r.2 ++ r2.2)

/-! ## Activity log store lines and ApiService parsing (src/app/ApiService.cpp)

Log lines are lists of characters; QString::split on the three-character
separator " - " is splitLine, QStringList::join on the same separator is
sepJoin, and QString::trimmed is trimChars. -/

/-- QString::split with separator " - ", with an explicit accumulator for the
segment being scanned.  Scans left to right; on each occurrence of the
separator the current segment is closed. -/
def splitAux : List Char → List Char → List (List Char)
  | [], acc => [acc.reverse]
  | ' ' :: '-' :: ' ' :: rest, acc => acc.reverse :: splitAux rest []
  | c :: rest, acc => splitAux rest (c :: acc)

/-- QString::split with separator " - " (keeping empty parts). -/
def splitLine (l : List Char) : List (List Char) := splitAux l []

/-- Whether a character list begins with the three-character separator " - ". -/
def startsWithSepB : List Char → Bool
  | c :: d :: e :: _ => c == ' ' && d == '-' && e == ' '
  | _ => false

/-- Whether the separator " - " occurs anywhere in a character list. -/
def hasSepB : List Char → Bool
  | [] => false
  | c :: rest => startsWithSepB (c :: rest) || hasSepB rest

/-- QStringList::join with separator " - ". -/
def sepJoin : List (List Char) → List Char
  | [] => []
  | [x] => x
  | x :: xs => x ++ ' ' :: '-' :: ' ' :: sepJoin xs

/-- QString::trimmed: strip leading and trailing whitespace. -/
def trimChars (l : List Char) : List Char :=
  ((l.dropWhile Char.isWhitespace).reverse.dropWhile Char.isWhitespace).reverse

/-- The hard-coded userId in ApiService::readActivityLogs. -/
def userIdConst : List Char := "current_user@company.com".data

/-- The hard-coded sessionId in ApiService::readActivityLogs. -/
def sessionIdConst : List Char := "1".data

/-- One JSON object built by ApiService::readActivityLogs. -/
structure LogEntry where
  timestamp : List Char
  eventType : List Char
  details : List Char
  userId : List Char
  sessionId : List Char
deriving DecidableEq

/-- The per-line body of ApiService::readActivityLogs: trim the line, skip it
when empty, split on " - ", and when at least three parts result build the
entry with details = parts.mid(2).join(" - ") and the two constant ids;
otherwise the line is skipped. -/
def parseLogLine (line : List Char) : Option LogEntry :=
  let t := trimChars line
  if t = [] then none
  else
    match splitLine t with
    | p0 :: p1 :: p2 :: rest =>
      some { timestamp := p0, eventType := p1, details := sepJoin (p2 :: rest),
             userId := userIdConst, sessionId := sessionIdConst }
    | _ => none

/-- ApiService::readActivityLogs over the stored lines of activity_log.txt. -/
def readActivityLogs (store : List (List Char)) : List LogEntry :=
  store.filterMap parseLogLine

/-- One serialized log line as the producers write it:
timestamp, " - ", event type, " - ", details. -/
def formatLine (ts et d : List Char) : List Char :=
  ts ++ ' ' :: '-' :: ' ' :: (et ++ ' ' :: '-' :: ' ' :: d)

/-! ## ApiService upload cycle (src/app/ApiService.cpp)

The ApiService state is the content of activity_log.txt as a list of lines,
together with the queue of network replies that have been posted but whose
finished callback has not yet run; each reply carries the activityLogs
property attached to it at post time.  uploadActivityLogs holds m_uploadMutex
only for the duration of its own body, which is modelled by the body being a
single atomic step. -/

/-- The ApiService state: the log file lines and the outstanding replies. -/
structure ApiState where
  store : List (List Char)
  pendingReplies : List (List LogEntry)
deriving DecidableEq

/-- Observable network and signal activity of the ApiService. -/
inductive NetAction where
  | post (payload : List LogEntry)
  | activityLogsUploaded (success : Bool)
deriving DecidableEq

/-- ApiService::uploadActivityLogs: read the store; if the parsed batch is
empty, return without a network call; otherwise post the batch and remember
the reply.  Nothing records or consults outstanding uploads. -/
def uploadActivityLogs (s : ApiState) : ApiState × List NetAction :=
  let logs := readActivityLogs s.store
  if logs = [] then (s, [])
  else
    ({ s with pendingReplies := s.pendingReplies ++ [logs] }, [NetAction.post logs])

/-- ApiService::clearUploadedLogs: truncate activity_log.txt, ignoring the
uploadedLogs argument. -/
def clearUploadedLogs (s : ApiState) : ApiState := { s with store := [] }

/-- ApiService::handleActivityResponse for the oldest outstanding reply:
on success truncate the store and signal true, on failure leave the store
untouched and signal false. -/
def handleActivityResponse (s : ApiState) (success : Bool) : ApiState × List NetAction :=
  match s.pendingReplies with
  | [] => (s, [])
  | _ :: rest =>
    if success then
      ({ clearUploadedLogs s with pendingReplies := rest },
        [NetAction.activityLogsUploaded true])
    else
      ({ s with pendingReplies := rest }, [NetAction.activityLogsUploaded false])

/-- One occurrence on the ApiService: a firing of the five-minute upload
timer, or completion of the oldest outstanding reply. -/
inductive UploadEvent where
  | timerFire
  | replyFinished (success : Bool)
deriving DecidableEq

/-- Dispatch one event to the ApiService. -/
def apiStep (s : ApiState) : UploadEvent → ApiState × List NetAction
  | UploadEvent.timerFire => uploadActivityLogs s
  | UploadEvent.replyFinished success => handleActivityResponse s success

/-- Run a sequence of events, concatenating the observed actions. -/
def apiRun (s : ApiState) : List UploadEvent → ApiState × List NetAction
  | [] => (s, [])
  | e :: es =>
    let r := apiStep s e
    let r2 := apiRun r.1 es
    (r2.1, r.2 ++ r2.2)

/-- Number of network submissions among the observed actions. -/
def countPosts (l : List NetAction) : Nat :=
  (l.filter fun a => match a with | NetAction.post _ => true | _ => false).length

/-! ## Idle annotation flow (src/app/TimeTrackerMainWindow.cpp,
src/app/IdleAnnotationDialog.cpp) -/

/-- The dialog-triggering decision in TimeTrackerMainWindow::onIdleEnded:
the dialog is shown exactly when the idle duration reaches 60 seconds. -/
def showsAnnotDialog (idleDurationSeconds : Int) : Bool :=
  decide (60 ≤ idleDurationSeconds)

/-- The data of an IdleAnnotationDialog: current reason combo text, note
text, and the idle interval passed to the constructor. -/
structure DialogState where
  reasonText : List Char
  noteText : List Char
  startTime : Int
  endTime : Int
deriving DecidableEq

/-- IdleAnnotationDialog::isValid: the reason text is non-empty. -/
def dialogIsValid (d : DialogState) : Bool := !(d.reasonText.isEmpty)

/-- The signal emitted by IdleAnnotationDialog::submitAnnotation. -/
inductive DialogSignal where
  | annotSubmitted (reason note : List Char)
deriving DecidableEq

/-- IdleAnnotationDialog::submitAnnotation: when valid, emit the signal once
and accept (close) the dialog; otherwise warn and leave the dialog open.
Returns the emitted signals and whether the dialog closed. -/
def submitAnnot (d : DialogState) : List DialogSignal × Bool :=
  if dialogIsValid d then
    ([DialogSignal.annotSubmitted d.reasonText d.noteText], true)
  else ([], false)

/-- IdleAnnotationData as filled by IdleAnnotationDialog::getAnnotationData,
whose durationSeconds field is startTime.secsTo(endTime) computed in the
dialog constructor. -/
structure IdleAnnotData where
  reason : List Char
  note : List Char
  startTime : Int
  endTime : Int
  durationSeconds : Int
deriving DecidableEq

/-- IdleAnnotationDialog::getAnnotationData. -/
def getAnnotData (d : DialogState) : IdleAnnotData :=
  { reason := d.reasonText, note := d.noteText, startTime := d.startTime,
    endTime := d.endTime, durationSeconds := secsTo d.startTime d.endTime }

/-! ## Auxiliary definitions for the statements -/

/-- Whether a call is IdleDetector::start. -/
def isStartCall : Call → Bool
  | Call.start _ => true
  | _ => false

/-- Whether a call is IdleDetector::triggerIdleCheck. -/
def isTriggerCall : Call → Bool
  | Call.triggerIdleCheck _ => true
  | _ => false

/-- A concrete well-formed log line as the keyboard hook writes it. -/
def lineKD : List Char := "2025-06-14 23:18:45 - KEY_DOWN - VK Code: 65".data

/-- The timestamp, event type and details of one record before
serialization. -/
structure RawRecord where
  ts : List Char
  et : List Char
  d : List Char
deriving DecidableEq

/-- A record whose serialized line round-trips: its timestamp and event type
contain no " - " (even up against the following separator) and its line
carries no leading or trailing whitespace. -/
def goodRecord (r : RawRecord) : Prop :=
  hasSepB (r.ts ++ [' ', '-']) = false ∧ hasSepB (r.et ++ [' ', '-']) = false ∧
    trimChars (formatLine r.ts r.et r.d) = formatLine r.ts r.et r.d

instance : DecidablePred goodRecord := fun r => by
  unfold goodRecord
  infer_instance

/-! ## Lemmas about the " - " split and join -/

theorem splitAux_sep (rest acc : List Char) :
    splitAux (' ' :: '-' :: ' ' :: rest) acc = acc.reverse :: splitAux rest [] := rfl

theorem startsWithSepB_false_of_side (c : Char) (rest : List Char)
    (hside : ∀ (r : List Char), c = ' ' → rest = '-' :: ' ' :: r → False) :
    startsWithSepB (c :: rest) = false := by
  cases rest with
  | nil => rfl
  | cons d rest2 =>
    cases rest2 with
    | nil => rfl
    | cons e r =>
      show (c == ' ' && d == '-' && e == ' ') = false
      by_cases hc : c = ' '
      · by_cases hd : d = '-'
        · by_cases he : e = ' '
          · exact (hside r hc (by rw [hd, he])).elim
          · simp [hc, hd, he]
        · simp [hd]
      · simp [hc]

theorem splitAux_cons_not (c : Char) (l acc : List Char)
    (h : startsWithSepB (c :: l) = false) :
    splitAux (c :: l) acc = splitAux l (c :: acc) := by
  rw [splitAux.eq_def]
  split
  · simp_all
  · rename_i rest heq
    rw [show c :: l = ' ' :: '-' :: ' ' :: rest from heq] at h
    simp [startsWithSepB] at h
  · rename_i c2 rest2 hside heq
    injection heq with h1 h2
    rw [h1, h2]

theorem startsWithSepB_pad (c : Char) (a rest : List Char) :
    startsWithSepB (c :: (a ++ ' ' :: '-' :: ' ' :: rest)) =
      startsWithSepB (c :: (a ++ [' ', '-'])) := by
  match a with
  | [] => simp [startsWithSepB]
  | [d] => simp [startsWithSepB]
  | d :: e :: t => simp [startsWithSepB]

theorem splitAux_ne_nil (l acc : List Char) : splitAux l acc ≠ [] := by
  induction l, acc using splitAux.induct with
  | case1 acc => simp [splitAux]
  | case2 rest acc ih => simp [splitAux_sep]
  | case3 c rest acc hside ih =>
    rw [splitAux_cons_not c rest acc (startsWithSepB_false_of_side c rest hside)]
    exact ih

theorem splitLine_ne_nil (l : List Char) : splitLine l ≠ [] := splitAux_ne_nil l []

theorem sepJoin_cons (x : List Char) (xs : List (List Char)) (h : xs ≠ []) :
    sepJoin (x :: xs) = x ++ ' ' :: '-' :: ' ' :: sepJoin xs := by
  cases xs with
  | nil => simp at h
  | cons y ys => rfl

theorem sepJoin_splitAux (l acc : List Char) :
    sepJoin (splitAux l acc) = acc.reverse ++ l := by
  induction l, acc using splitAux.induct with
  | case1 acc => simp [splitAux, sepJoin]
  | case2 rest acc ih =>
    rw [splitAux_sep, sepJoin_cons _ _ (splitAux_ne_nil rest [])]
    simp [ih]
  | case3 c rest acc hside ih =>
    rw [splitAux_cons_not c rest acc (startsWithSepB_false_of_side c rest hside), ih]
    simp

theorem sepJoin_splitLine (l : List Char) : sepJoin (splitLine l) = l := by
  simpa using sepJoin_splitAux l []

theorem splitAux_append_sep (a : List Char) :
    ∀ (acc rest : List Char), hasSepB (a ++ [' ', '-']) = false →
      splitAux (a ++ ' ' :: '-' :: ' ' :: rest) acc =
        (acc.reverse ++ a) :: splitLine rest := by
  induction a with
  | nil => intro acc rest h; simp [splitAux_sep, splitLine]
  | cons c a2 ih =>
    intro acc rest h
    simp only [hasSepB, Bool.or_eq_false_iff] at h
    obtain ⟨h1, h2⟩ := h
    have hs : startsWithSepB (c :: (a2 ++ ' ' :: '-' :: ' ' :: rest)) = false := by
      rw [startsWithSepB_pad]
      calc startsWithSepB (c :: (a2 ++ [' ', '-']))
        = startsWithSepB (c :: a2 ++ [' ', '-']) := by simp
        _ = false := h1
    rw [List.cons_append, splitAux_cons_not _ _ _ hs, ih (c :: acc) rest h2]
    simp

theorem splitLine_append_sep (a rest : List Char)
    (h : hasSepB (a ++ [' ', '-']) = false) :
    splitLine (a ++ ' ' :: '-' :: ' ' :: rest) = a :: splitLine rest := by
  simpa [splitLine] using splitAux_append_sep a [] rest h

/-! ## Lemmas about parseLogLine -/

theorem parseLogLine_formatLine (ts et d : List Char)
    (hts : hasSepB (ts ++ [' ', '-']) = false)
    (het : hasSepB (et ++ [' ', '-']) = false)
    (htrim : trimChars (formatLine ts et d) = formatLine ts et d) :
    parseLogLine (formatLine ts et d) =
      some { timestamp := ts, eventType := et, details := d,
             userId := userIdConst, sessionId := sessionIdConst } := by
  have hne : formatLine ts et d ≠ [] := by simp [formatLine]
  have hsplit : splitLine (formatLine ts et d) = ts :: et :: splitLine d := by
    unfold formatLine
    rw [splitLine_append_sep ts _ hts, splitLine_append_sep et _ het]
  obtain ⟨z, zs, hz⟩ := List.exists_cons_of_ne_nil (splitLine_ne_nil d)
  simp only [parseLogLine, htrim, if_neg hne, hsplit, hz]
  rw [← hz, sepJoin_splitLine]

theorem parseLogLine_short (line : List Char)
    (h : (splitLine (trimChars line)).length < 3) : parseLogLine line = none := by
  by_cases ht : trimChars line = []
  · simp [parseLogLine, ht]
  · rcases hs : splitLine (trimChars line) with _ | ⟨p0, _ | ⟨p1, _ | ⟨p2, rest⟩⟩⟩
    · simp [parseLogLine, ht, hs]
    · simp [parseLogLine, ht, hs]
    · simp [parseLogLine, ht, hs]
    · rw [hs] at h; simp at h; omega

/-! ## Claims about the IdleDetector -/

/-- Claim C2: every call to updateLastActivityTime sets lastActivityTime to
now; if the detector was idle it closes the idle interval in the same call
and emits exactly one idle-end carrying the span from idleStartTime to now;
if it was not idle it emits nothing. -/
theorem C2_updateLastActivityTime (s : DetectorState) (now : Int) :
    (IdleDetector.updateLastActivityTime s now).1.lastActivityTime = now ∧
    (s.isCurrentlyIdle = true →
      (IdleDetector.updateLastActivityTime s now).1.isCurrentlyIdle = false ∧
      (IdleDetector.updateLastActivityTime s now).2 =
        [Signal.idleEnded (secsTo s.idleStartTime now)]) ∧
    (s.isCurrentlyIdle = false →
      IdleDetector.updateLastActivityTime s now =
        ({ s with lastActivityTime := now }, [])) := by
  unfold IdleDetector.updateLastActivityTime
  cases h : s.isCurrentlyIdle <;> simp [h]

/-- Witness for C2 at a concrete idle state: activity at instant 100 with
idleStartTime 40 ends the idle interval with duration 60. -/
theorem C2_witness :
    (IdleDetector.updateLastActivityTime ⟨true, 0, 40, true, 300⟩ 100).1.lastActivityTime = 100 ∧
    (IdleDetector.updateLastActivityTime ⟨true, 0, 40, true, 300⟩ 100).2 =
      [Signal.idleEnded 60] := by
  have h := C2_updateLastActivityTime ⟨true, 0, 40, true, 300⟩ 100
  exact ⟨h.1, ((h.2.1 rfl).2).trans (by decide)⟩

/-- Claim C3: a periodic check at instant now while not idle with
now - lastActivityTime at least the threshold transitions to idle with
idleStartTime = lastActivityTime + threshold and emits idle-start once
carrying the threshold; a check while already idle emits nothing and
changes no state. -/
theorem C3_checkIdleState (s : DetectorState) (now : Int) :
    (s.isCurrentlyIdle = false → s.idleThresholdSeconds ≤ secsTo s.lastActivityTime now →
      (IdleDetector.checkIdleState s now).1.isCurrentlyIdle = true ∧
      (IdleDetector.checkIdleState s now).1.idleStartTime =
        s.lastActivityTime + s.idleThresholdSeconds ∧
      (IdleDetector.checkIdleState s now).2 =
        [Signal.idleStarted s.idleThresholdSeconds]) ∧
    (s.isCurrentlyIdle = true → IdleDetector.checkIdleState s now = (s, [])) := by
  unfold IdleDetector.checkIdleState
  constructor
  · intro h1 h2; simp [h1, h2]
  · intro h1; simp [h1]

/-- Witness for C3: last activity at 10, threshold 300, check at 310 enters
idle with idleStartTime 310 and emits idle-start of 300. -/
theorem C3_witness :
    (IdleDetector.checkIdleState ⟨true, 10, 0, false, 300⟩ 310).1.isCurrentlyIdle = true ∧
    (IdleDetector.checkIdleState ⟨true, 10, 0, false, 300⟩ 310).1.idleStartTime = 310 ∧
    (IdleDetector.checkIdleState ⟨true, 10, 0, false, 300⟩ 310).2 =
      [Signal.idleStarted 300] := by
  have h := (C3_checkIdleState ⟨true, 10, 0, false, 300⟩ 310).1 rfl (by decide)
  exact ⟨h.1, h.2.1.trans (by decide), h.2.2⟩

/-- Claim C4: stop while running and idle emits exactly one idle-end with
the duration accrued from idleStartTime and leaves the detector neither
idle nor running; stop while running and not idle emits nothing; stop while
already stopped emits nothing and changes no state. -/
theorem C4_stop (s : DetectorState) (now : Int) :
    (s.running = true → s.isCurrentlyIdle = true →
      IdleDetector.stop s now =
        ({ s with running := false, isCurrentlyIdle := false },
          [Signal.idleEnded (secsTo s.idleStartTime now)])) ∧
    (s.running = true → s.isCurrentlyIdle = false →
      IdleDetector.stop s now = ({ s with running := false }, [])) ∧
    (s.running = false → IdleDetector.stop s now = (s, [])) := by
  unfold IdleDetector.stop
  refine ⟨fun h1 h2 => by simp [h1, h2], fun h1 h2 => by simp [h1, h2],
    fun h1 => by simp [h1]⟩

/-- Witness for C4: stopping an idle detector at 100 with idleStartTime 40
emits one idle-end of 60; stopping a stopped detector is a no-op. -/
theorem C4_witness :
    IdleDetector.stop ⟨true, 0, 40, true, 300⟩ 100 =
      (⟨false, 0, 40, false, 300⟩, [Signal.idleEnded 60]) ∧
    IdleDetector.stop ⟨false, 0, 40, false, 300⟩ 100 =
      (⟨false, 0, 40, false, 300⟩, []) := by
  have h1 := (C4_stop ⟨true, 0, 40, true, 300⟩ 100).1 rfl rfl
  have h2 := (C4_stop ⟨false, 0, 40, false, 300⟩ 100).2.2 rfl
  exact ⟨h1.trans (by decide), h2⟩

/-- Claim C8: setIdleThresholdSeconds rejects non-positive values keeping
the prior threshold and all other state; a positive value updates only the
threshold, leaving isIdle, idleStartTime and lastActivityTime unchanged in
every call. -/
theorem C8_setIdleThresholdSeconds (s : DetectorState) (seconds : Int) :
    (seconds ≤ 0 → IdleDetector.setIdleThresholdSeconds s seconds = (s, [])) ∧
    (0 < seconds →
      IdleDetector.setIdleThresholdSeconds s seconds =
        ({ s with idleThresholdSeconds := seconds }, [])) ∧
    (IdleDetector.setIdleThresholdSeconds s seconds).1.isCurrentlyIdle =
      s.isCurrentlyIdle ∧
    (IdleDetector.setIdleThresholdSeconds s seconds).1.idleStartTime =
      s.idleStartTime ∧
    (IdleDetector.setIdleThresholdSeconds s seconds).1.lastActivityTime =
      s.lastActivityTime := by
  unfold IdleDetector.setIdleThresholdSeconds
  refine ⟨fun h => by rw [if_neg (by omega)], fun h => by rw [if_pos h], ?_, ?_, ?_⟩ <;>
    by_cases h : 0 < seconds <;> simp [h]

/-- Witness for C8: threshold -5 is rejected with all state retained;
threshold 120 updates only the threshold. -/
theorem C8_witness :
    IdleDetector.setIdleThresholdSeconds ⟨true, 7, 3, true, 300⟩ (-5) =
      (⟨true, 7, 3, true, 300⟩, []) ∧
    IdleDetector.setIdleThresholdSeconds ⟨true, 7, 3, true, 300⟩ 120 =
      (⟨true, 7, 3, true, 120⟩, []) := by
  have h1 := (C8_setIdleThresholdSeconds ⟨true, 7, 3, true, 300⟩ (-5)).1 (by decide)
  have h2 := (C8_setIdleThresholdSeconds ⟨true, 7, 3, true, 300⟩ 120).2.1 (by decide)
  exact ⟨h1, h2.trans (by decide)⟩

/-- Claim C9 as stated is false: checkIdleState never consults the timer
activity flag, and triggerIdleCheck calls it unconditionally, so a stopped
detector whose last activity is old enough transitions to idle and emits
idle-start on a triggerIdleCheck call. -/
theorem C9_counterexample :
    (⟨false, 0, 0, false, 300⟩ : DetectorState).running = false ∧
    (detRun ⟨false, 0, 0, false, 300⟩ [Call.triggerIdleCheck 300]).1.isCurrentlyIdle = true ∧
    (detRun ⟨false, 0, 0, false, 300⟩ [Call.triggerIdleCheck 300]).2 =
      [Signal.idleStarted 300] := by decide

/-- Claim C9 amended: start on a stopped detector transitions it to running
(STOPPED to ACTIVE), leaving it not idle and emitting nothing; and while
the detector is stopped and not idle, any sequence of the remaining calls
avoiding triggerIdleCheck leaves it stopped and not idle and emits no
signal (the periodic timer does not fire while stopped); triggerIdleCheck
however is not guarded by the running flag. -/
theorem C9_amended :
    (∀ (s : DetectorState) (now : Int), s.running = false →
      (IdleDetector.start s now).1.running = true ∧
      (IdleDetector.start s now).1.isCurrentlyIdle = false ∧
      (IdleDetector.start s now).2 = []) ∧
    (∀ (calls : List Call) (s : DetectorState),
      s.running = false → s.isCurrentlyIdle = false →
      (∀ c ∈ calls, isStartCall c = false ∧ isTriggerCall c = false) →
      (detRun s calls).1.running = false ∧
      (detRun s calls).1.isCurrentlyIdle = false ∧
      (detRun s calls).2 = []) := by
  constructor
  · intro s now h
    unfold IdleDetector.start
    simp [h]
  intro calls
  induction calls with
  | nil => intro s h1 h2 _; exact ⟨h1, h2, rfl⟩
  | cons c cs ih =>
    intro s hrun hidle hc
    obtain ⟨hstart, htrig⟩ := hc c (by simp)
    have hstep : (detStep s c).1.running = false ∧
        (detStep s c).1.isCurrentlyIdle = false ∧ (detStep s c).2 = [] := by
      cases c with
      | start now => simp [isStartCall] at hstart
      | triggerIdleCheck now => simp [isTriggerCall] at htrig
      | stop now => simp [detStep, IdleDetector.stop, hrun, hidle]
      | updateLastActivityTime now =>
        simp [detStep, IdleDetector.updateLastActivityTime, hrun, hidle]
      | setIdleThresholdSeconds seconds =>
        by_cases h : 0 < seconds <;>
          simp [detStep, IdleDetector.setIdleThresholdSeconds, h, hrun, hidle]
      | timerTick now => simp [detStep, hrun, hidle]
    have hrest := ih (detStep s c).1 hstep.1 hstep.2.1 (fun x hx => hc x (by simp [hx]))
    simp only [detRun]
    exact ⟨hrest.1, hrest.2.1, by rw [hstep.2.2, hrest.2.2]; rfl⟩

/-- Witness for the amended C9: starting a stopped detector makes it
running, not idle, with no signal; and from a stopped state, a stop, an
activity update, a threshold change and a timer tick leave the detector
stopped, not idle, and silent. -/
theorem C9_amended_witness :
    ((IdleDetector.start ⟨false, 5, 0, false, 300⟩ 42).1.running = true ∧
      (IdleDetector.start ⟨false, 5, 0, false, 300⟩ 42).1.isCurrentlyIdle = false ∧
      (IdleDetector.start ⟨false, 5, 0, false, 300⟩ 42).2 = []) ∧
    (detRun ⟨false, 5, 0, false, 300⟩
      [Call.stop 6, Call.updateLastActivityTime 7,
        Call.setIdleThresholdSeconds 10, Call.timerTick 900]).1.running = false ∧
    (detRun ⟨false, 5, 0, false, 300⟩
      [Call.stop 6, Call.updateLastActivityTime 7,
        Call.setIdleThresholdSeconds 10, Call.timerTick 900]).1.isCurrentlyIdle = false ∧
    (detRun ⟨false, 5, 0, false, 300⟩
      [Call.stop 6, Call.updateLastActivityTime 7,
        Call.setIdleThresholdSeconds 10, Call.timerTick 900]).2 = [] :=
  ⟨C9_amended.1 ⟨false, 5, 0, false, 300⟩ 42 rfl,
    C9_amended.2
      [Call.stop 6, Call.updateLastActivityTime 7,
        Call.setIdleThresholdSeconds 10, Call.timerTick 900]
      ⟨false, 5, 0, false, 300⟩ rfl rfl (by decide)⟩

/-! ## Claims about the ApiService upload pipeline -/

/-- Claim C1 as stated is false: uploadActivityLogs holds its mutex only for
its synchronous body and records nothing about outstanding replies, so a
second timer firing before the first reply completes reads the store again
and submits a second upload: after two firings on a one-line store with no
completion in between, two posts have been made and two replies are
outstanding. -/
theorem C1_counterexample :
    (apiRun ⟨[lineKD], []⟩ [UploadEvent.timerFire]).1.pendingReplies.length = 1 ∧
    countPosts (apiRun ⟨[lineKD], []⟩
      [UploadEvent.timerFire, UploadEvent.timerFire]).2 = 2 ∧
    (apiRun ⟨[lineKD], []⟩
      [UploadEvent.timerFire, UploadEvent.timerFire]).1.pendingReplies.length = 2 := by
  decide

/-- Claim C1 amended: the upload cycle is serialized only against concurrent
executions of its own synchronous body; a firing with an empty parsed store
makes no network call, and a firing with a non-empty parsed store reads the
store and submits exactly one more upload regardless of how many uploads
are already outstanding (overlapping firings are neither dropped nor
queued behind the outstanding reply). -/
theorem C1_amended (s : ApiState) :
    (readActivityLogs s.store = [] → uploadActivityLogs s = (s, [])) ∧
    (readActivityLogs s.store ≠ [] →
      (uploadActivityLogs s).2 = [NetAction.post (readActivityLogs s.store)] ∧
      (uploadActivityLogs s).1.store = s.store ∧
      (uploadActivityLogs s).1.pendingReplies =
        s.pendingReplies ++ [readActivityLogs s.store]) := by
  unfold uploadActivityLogs
  by_cases h : readActivityLogs s.store = [] <;> simp [h]

/-- Witness for the amended C1: a firing with one reply already outstanding
still submits, leaving two outstanding. -/
theorem C1_witness :
    (uploadActivityLogs ⟨[lineKD], [readActivityLogs [lineKD]]⟩).1.pendingReplies.length = 2 := by
  have h := (C1_amended ⟨[lineKD], [readActivityLogs [lineKD]]⟩).2 (by decide)
  rw [h.2.2]
  decide

/-- Claim C5: a cycle whose store read yields no records makes no network
call; on transport success the store is truncated and the success signal is
emitted; on failure the store is untouched, so the next cycle reads the
same records. -/
theorem C5_uploadCycle (s : ApiState) (logs : List LogEntry)
    (rest : List (List LogEntry)) :
    (readActivityLogs s.store = [] → uploadActivityLogs s = (s, [])) ∧
    (s.pendingReplies = logs :: rest →
      (handleActivityResponse s true).1.store = [] ∧
      (handleActivityResponse s true).2 = [NetAction.activityLogsUploaded true] ∧
      (handleActivityResponse s false).1.store = s.store ∧
      readActivityLogs (handleActivityResponse s false).1.store =
        readActivityLogs s.store ∧
      (handleActivityResponse s false).2 = [NetAction.activityLogsUploaded false]) := by
  constructor
  · intro h; unfold uploadActivityLogs; simp [h]
  · intro h; unfold handleActivityResponse; rw [h]; simp [clearUploadedLogs]

/-- Witness for C5: an empty store skips the call; with one outstanding
reply, success truncates the one-line store and failure leaves it intact. -/
theorem C5_witness :
    uploadActivityLogs ⟨[], []⟩ = (⟨[], []⟩, []) ∧
    (handleActivityResponse ⟨[lineKD], [readActivityLogs [lineKD]]⟩ true).1.store = [] ∧
    (handleActivityResponse ⟨[lineKD], [readActivityLogs [lineKD]]⟩ false).1.store =
      [lineKD] := by
  have h1 := (C5_uploadCycle ⟨[], []⟩ [] []).1 (by decide)
  have h2 := (C5_uploadCycle ⟨[lineKD], [readActivityLogs [lineKD]]⟩
    (readActivityLogs [lineKD]) []).2 rfl
  exact ⟨h1, h2.1, h2.2.2.1⟩

/-- Claim C10: every entry produced by reading the store for upload carries
the constant userId "current_user@company.com" and the constant
sessionId "1". -/
theorem C10_constantIds (store : List (List Char)) (e : LogEntry)
    (h : e ∈ readActivityLogs store) :
    e.userId = userIdConst ∧ e.sessionId = sessionIdConst := by
  unfold readActivityLogs at h
  rw [List.mem_filterMap] at h
  obtain ⟨l, _, hl⟩ := h
  simp only [parseLogLine] at hl
  by_cases ht : trimChars l = []
  · simp [ht] at hl
  · rw [if_neg ht] at hl
    rcases hs : splitLine (trimChars l) with _ | ⟨p0, _ | ⟨p1, _ | ⟨p2, rest⟩⟩⟩ <;>
      rw [hs] at hl
    · exact absurd hl (by simp)
    · exact absurd hl (by simp)
    · exact absurd hl (by simp)
    · injection hl with hl2
      rw [← hl2]
      exact ⟨rfl, rfl⟩

/-- Witness for C10 at the concrete keyboard line. -/
theorem C10_witness :
    ({ timestamp := "2025-06-14 23:18:45".data, eventType := "KEY_DOWN".data,
       details := "VK Code: 65".data, userId := userIdConst,
       sessionId := sessionIdConst } : LogEntry).userId = userIdConst ∧
    ({ timestamp := "2025-06-14 23:18:45".data, eventType := "KEY_DOWN".data,
       details := "VK Code: 65".data, userId := userIdConst,
       sessionId := sessionIdConst } : LogEntry).sessionId = sessionIdConst :=
  C10_constantIds [lineKD] _ (by decide)

/-! ## Claims about the log store round trip -/

theorem readActivityLogs_map_formatLine : ∀ (rs : List RawRecord),
    (∀ r ∈ rs, goodRecord r) →
    readActivityLogs (rs.map fun r => formatLine r.ts r.et r.d) =
      rs.map fun r =>
        { timestamp := r.ts, eventType := r.et, details := r.d,
          userId := userIdConst, sessionId := sessionIdConst } := by
  intro rs
  induction rs with
  | nil => intro _; rfl
  | cons r rs ih =>
    intro h
    obtain ⟨h1, h2, h3⟩ := h r (by simp)
    have hr := ih (fun x hx => h x (by simp [hx]))
    unfold readActivityLogs at hr ⊢
    simp only [List.map_cons, List.filterMap_cons,
      parseLogLine_formatLine r.ts r.et r.d h1 h2 h3]
    rw [hr]

/-- Claim C6 as stated is false: the line "A - B" has exactly two
" - "-delimited segments, so by the claim it is well-formed and reading
should yield its record, but readActivityLogs requires at least three
segments and skips it. -/
theorem C6_counterexample :
    (splitLine (trimChars ("A - B".data))).length = 2 ∧
    readActivityLogs [("A - B".data)] = [] := by decide

/-- Claim C6 amended: a line is well-formed when it has at least three
" - "-delimited segments (two delimiters); appending N well-formed records
and reading yields exactly the N records with eventType and details equal
to those written, details being the remainder after the second delimiter
rejoined; any line with fewer than three segments is skipped without error
and without aborting the read. -/
theorem C6_roundTrip (rs : List RawRecord) (h : ∀ r ∈ rs, goodRecord r)
    (line : List Char) (hshort : (splitLine (trimChars line)).length < 3) :
    readActivityLogs (rs.map fun r => formatLine r.ts r.et r.d) =
      (rs.map fun r =>
        { timestamp := r.ts, eventType := r.et, details := r.d,
          userId := userIdConst, sessionId := sessionIdConst }) ∧
    parseLogLine line = none :=
  ⟨readActivityLogs_map_formatLine rs h, parseLogLine_short line hshort⟩

/-- Witness for the amended C6: two concrete records, the second with the
literal delimiter inside its details, round-trip; the two-segment line
"A - B" is skipped. -/
theorem C6_witness :
    readActivityLogs
      [formatLine ("2025-06-14 23:18:45".data) ("KEY_DOWN".data) ("VK Code: 65".data),
        formatLine ("2025-06-14 23:18:46".data) ("IDLE_ANNOTATED".data)
          ("DURATION: 5s - REASON: Break - NOTE: x".data)] =
      [{ timestamp := "2025-06-14 23:18:45".data, eventType := "KEY_DOWN".data,
          details := "VK Code: 65".data, userId := userIdConst,
          sessionId := sessionIdConst },
        { timestamp := "2025-06-14 23:18:46".data, eventType := "IDLE_ANNOTATED".data,
          details := "DURATION: 5s - REASON: Break - NOTE: x".data,
          userId := userIdConst, sessionId := sessionIdConst }] ∧
    parseLogLine ("A - B".data) = none := by
  have h := C6_roundTrip
    [⟨"2025-06-14 23:18:45".data, "KEY_DOWN".data, "VK Code: 65".data⟩,
      ⟨"2025-06-14 23:18:46".data, "IDLE_ANNOTATED".data,
        "DURATION: 5s - REASON: Break - NOTE: x".data⟩]
    (by decide) ("A - B".data) (by decide)
  exact ⟨h.1, h.2⟩

/-! ## Claims about the idle annotation flow -/

/-- Claim C7: an idle-end triggers the dialog exactly when its duration
reaches 60 seconds; submitting with an empty reason emits no signal and
leaves the dialog open; submitting with a non-empty reason emits exactly
one signal carrying that reason and note and closes the dialog; the
annotation durationSeconds equals endTime minus startTime. -/
theorem C7_annotFlow (dur : Int) (d : DialogState) :
    (showsAnnotDialog dur = true ↔ 60 ≤ dur) ∧
    (d.reasonText = [] → submitAnnot d = ([], false)) ∧
    (d.reasonText ≠ [] →
      submitAnnot d = ([DialogSignal.annotSubmitted d.reasonText d.noteText], true)) ∧
    (getAnnotData d).durationSeconds = d.endTime - d.startTime := by
  refine ⟨by simp [showsAnnotDialog], ?_, ?_, rfl⟩
  · intro h; simp [submitAnnot, dialogIsValid, h]
  · intro h; simp [submitAnnot, dialogIsValid, h]

/-- Witness for C7: duration 59 does not trigger, 60 does; the empty reason
is rejected with the dialog open, reason "Meeting" is accepted with one
signal; the duration of the interval 40 to 100 is 60. -/
theorem C7_witness :
    showsAnnotDialog 59 = false ∧ showsAnnotDialog 60 = true ∧
    submitAnnot ⟨[], "note".data, 0, 100⟩ = ([], false) ∧
    submitAnnot ⟨"Meeting".data, "note".data, 0, 100⟩ =
      ([DialogSignal.annotSubmitted ("Meeting".data) ("note".data)], true) ∧
    (getAnnotData ⟨"Meeting".data, [], 40, 100⟩).durationSeconds = 60 := by
  have h59 := (C7_annotFlow 59 ⟨[], "note".data, 0, 100⟩).1
  have h60 := (C7_annotFlow 60 ⟨[], [], 0, 0⟩).1
  have hrej := (C7_annotFlow 0 ⟨[], "note".data, 0, 100⟩).2.1 rfl
  have hsub := (C7_annotFlow 0 ⟨"Meeting".data, "note".data, 0, 100⟩).2.2.1 (by decide)
  have hdur := (C7_annotFlow 0 ⟨"Meeting".data, [], 40, 100⟩).2.2.2
  refine ⟨?_, h60.mpr (by decide), hrej, hsub, hdur.trans (by decide)⟩
  exact Bool.eq_false_iff.mpr (fun hh => absurd (h59.mp hh) (by decide))

end TimeTracker
